import Mathlib

/-!
Verification of the streamlit_agent core components against their
natural-language specification.

Shallow embedding of:
- `streamlit_agent/components/error_handler.py` (ErrorHandler: the spec's
  ErrorClassifier),
- `streamlit_agent/components/diagram_manager.py` (DiagramManager: the spec's
  ArtifactWatcher),
- `streamlit_agent/components/agent_wrapper.py` (StreamlitAgentWrapper: the
  spec's TaskExecutor and StatusBroadcaster).

Conventions of the embedding:
- Python strings are Lean `String` / `List Char`; `str.lower` is
  `Char.toLower` (the repository only manipulates ASCII names).
- Wall-clock instants (`datetime.now()`, `time.time()`, `st_ctime`,
  `st_mtime`) are `Nat` counters (seconds); a float division such as
  `total_seconds() / 3600 > max_age_hours` is rendered by the equivalent
  integer comparison `seconds > max_age_hours * 3600`.
- The filesystem is an explicit value: a directory-exists flag plus a list
  of file entries (path, is-file flag, mtime, ctime, size).  Paths in the
  model are already in the normalized form that `_normalize_file_path`
  produces (`Path.resolve()` is an OS call with no further observable
  effect on such paths, so it is the identity here).
- Code that may raise is rendered in `Except PyExc`; a Python
  `try/except Exception` is an explicit `match` on that value.
-/

/-! ### Python string primitives used by the components -/

/-- Python `str.rfind(c)` on a character, as an optional index
(`None` for the Python return value `-1`). -/
def rfindCharAux (c : Char) : List Char → Nat → Option Nat
  | [], _ => none
  | a :: r, i =>
    match rfindCharAux c r (i + 1) with
    | some j => some j
    | none => if a = c then some i else none

def rfindChar (c : Char) (l : List Char) : Option Nat :=
  rfindCharAux c l 0

/-- `pathlib.PurePath.name`: the component after the last slash. -/
def pyName (l : List Char) : List Char :=
  match rfindChar '/' l with
  | some i => l.drop (i + 1)
  | none => l

/-- `pathlib.PurePath.suffix` on a final component: `name[i:]` when the last
dot sits strictly inside the name (`0 < i < len(name) - 1`), else empty. -/
def pySuffixOfName (name : List Char) : List Char :=
  match rfindChar '.' name with
  | some i => if 0 < i ∧ i < name.length - 1 then name.drop i else []
  | none => []

/-- `pathlib.PurePath.stem` on a final component. -/
def pyStemOfName (name : List Char) : List Char :=
  match rfindChar '.' name with
  | some i => if 0 < i ∧ i < name.length - 1 then name.take i else name
  | none => name

/-- `Path(p).suffix` for a slash-separated path string. -/
def pySuffix (p : String) : String :=
  ⟨pySuffixOfName (pyName p.data)⟩

/-- `str.lower()` (ASCII). -/
def pyLower (s : String) : String :=
  ⟨s.data.map Char.toLower⟩

/-- `Path(p).name` for a slash-separated path string. -/
def pyNameStr (p : String) : String :=
  ⟨pyName p.data⟩

/-- `str.capitalize()`: first character upper-cased, the rest lower-cased. -/
def pyCapitalize : List Char → List Char
  | [] => []
  | c :: r => Char.toUpper c :: r.map Char.toLower

/-- Helper for `str.split()` with no separator: accumulate the current word
(reversed) and cut at whitespace runs, discarding empty pieces. -/
def splitWsAux : List Char → List Char → List (List Char)
  | [], acc => if acc.isEmpty then [] else [acc.reverse]
  | c :: r, acc =>
    if c.isWhitespace then
      if acc.isEmpty then splitWsAux r [] else acc.reverse :: splitWsAux r []
    else
      splitWsAux r (c :: acc)

/-- Python `str.split()` (split on whitespace runs, no empty words). -/
def pySplitWs (l : List Char) : List (List Char) :=
  splitWsAux l []

/-! ### ErrorHandler (`error_handler.py`) — the spec's ErrorClassifier -/

/-- `ErrorCategory` enum of `error_handler.py`. -/
inductive ErrorCategory where
  | agent_error
  | file_system_error
  | diagram_error
  | validation_error
  | network_error
  | configuration_error
  | ui_error
  | unknown_error
deriving DecidableEq, Repr

/-- `ErrorSeverity` enum of `error_handler.py`. -/
inductive ErrorSeverity where
  | low
  | medium
  | high
  | critical
deriving DecidableEq, Repr

/-- `ErrorInfo` record (`error_handler.py`).  The embedding keeps the fields
the verified claims touch: category, severity, the raw message
(`str(error)`) and the reporting component.  The derived user-facing text,
recovery suggestions and timestamp are presentation data built from these
and are not modelled. -/
structure ErrorInfo where
  category : ErrorCategory
  severity : ErrorSeverity
  message : String
  component : String
deriving DecidableEq, Repr

/-- `ErrorHandler._max_history_size` (default capacity 100). -/
def max_history_size : Nat := 100

/-- `ErrorHandler._add_to_history`: append, then keep only the trailing
`_max_history_size` records (`history[-size:]`) once the bound is exceeded. -/
def add_to_history (h : List ErrorInfo) (e : ErrorInfo) : List ErrorInfo :=
  let h2 := h ++ [e]
  if h2.length > max_history_size then h2.drop (h2.length - max_history_size) else h2

/-- `ErrorHandler.get_error_history(limit)`: Python `history[-limit:]` (with
the `limit = 0` slice degenerating to the whole list), empty when the
history is empty. -/
def get_error_history (h : List ErrorInfo) (limit : Nat) : List ErrorInfo :=
  if h.isEmpty then [] else if limit = 0 then h else h.drop (h.length - limit)

/-- `ErrorHandler.handle_error` restricted to its state effect: build the
`ErrorInfo` and append it to the bounded history (UI display and logging are
outside the model; the call sites verified here all pass
`show_in_ui=False`). -/
def handle_error (h : List ErrorInfo) (category : ErrorCategory)
    (severity : ErrorSeverity) (msg : String) (component : String) : List ErrorInfo :=
  add_to_history h { category := category, severity := severity, message := msg, component := component }

/-- The trailing `n` elements of a list (`l[-n:]` for `n > 0`). -/
def lastN (n : Nat) (l : List α) : List α :=
  l.drop (l.length - n)

theorem add_to_history_eq_lastN (h : List ErrorInfo) (e : ErrorInfo) :
    add_to_history h e = lastN max_history_size (h ++ [e]) := by
  simp only [add_to_history, lastN]
  split
  · rfl
  · next hl =>
      have hl2 : (h ++ [e]).length ≤ max_history_size := Nat.le_of_not_lt hl
      have hz : (h ++ [e]).length - max_history_size = 0 := by omega
      rw [hz, List.drop_zero]

theorem lastN_length_le (n : Nat) (l : List α) : (lastN n l).length ≤ n := by
  simp [lastN]
  omega

theorem lastN_append_absorb (n : Nat) (a b : List α) :
    lastN n (lastN n a ++ b) = lastN n (a ++ b) := by
  unfold lastN
  by_cases hn : n ≤ a.length
  · have hd : a.length - n ≤ a.length := by omega
    rw [← List.drop_append_of_le_length hd, List.drop_drop]
    congr 1
    simp [List.length_drop, List.length_append]
    omega
  · have h0 : a.length - n = 0 := by omega
    simp [h0]

theorem lastN_of_length_le (n : Nat) (l : List α) (hl : l.length ≤ n) :
    lastN n l = l := by
  unfold lastN
  have : l.length - n = 0 := by omega
  simp [this]

theorem foldl_add_to_history (l : List ErrorInfo) :
    ∀ h : List ErrorInfo, h.length ≤ max_history_size →
      l.foldl add_to_history h = lastN max_history_size (h ++ l) := by
  induction l with
  | nil =>
    intro h hh
    simpa using (lastN_of_length_le max_history_size h hh).symm
  | cons e r ih =>
    intro h hh
    have step : List.foldl add_to_history h (e :: r)
        = List.foldl add_to_history (add_to_history h e) r := rfl
    rw [step, add_to_history_eq_lastN,
        ih _ (lastN_length_le max_history_size (h ++ [e])),
        lastN_append_absorb]
    simp

/-- C7: concrete history of 150 pairwise distinct records used by the
witness below. -/
def recs150 : List ErrorInfo :=
  (List.range 150).map fun i =>
    { category := .validation_error, severity := .medium, message := toString i, component := "test" }

/-- C7: the ErrorHandler history never exceeds its capacity of 100 records
and always consists of the most recent records (oldest evicted first);
after appending 150 records, `get_error_history 1000` returns exactly the
100 most recent records in order. -/
theorem error_history_capacity_and_recency (recs : List ErrorInfo) :
    recs.foldl add_to_history [] = lastN max_history_size recs
    ∧ (recs.foldl add_to_history []).length ≤ max_history_size
    ∧ (recs.length = 150 →
        get_error_history (recs.foldl add_to_history []) 1000 = recs.drop 50
        ∧ (recs.foldl add_to_history []).length = 100) := by
  have hfold : recs.foldl add_to_history [] = lastN max_history_size recs := by
    have h := foldl_add_to_history recs [] (by simp [max_history_size])
    simpa using h
  refine ⟨hfold, ?_, ?_⟩
  · rw [hfold]
    exact lastN_length_le _ _
  · intro h150
    have hdrop : recs.foldl add_to_history [] = recs.drop 50 := by
      rw [hfold]
      unfold lastN max_history_size
      rw [h150]
    have hlen : (recs.foldl add_to_history []).length = 100 := by
      rw [hdrop, List.length_drop, h150]
    refine ⟨?_, hlen⟩
    unfold get_error_history
    have hne : (recs.foldl add_to_history []).isEmpty = false := by
      rcases hl : recs.foldl add_to_history [] with _ | ⟨a, t⟩
      · rw [hl] at hlen
        simp at hlen
      · rfl
    rw [hne]
    simp only [Bool.false_eq_true, if_false]
    rw [hlen]
    norm_num
    exact hdrop

theorem error_history_capacity_and_recency_witness :
    get_error_history (recs150.foldl add_to_history []) 1000 = recs150.drop 50
    ∧ (recs150.foldl add_to_history []).length = 100 :=
  (error_history_capacity_and_recency recs150).2.2 (by simp [recs150])

/-! ### DiagramManager title generation (`_generate_diagram_title`) -/

/-- `DiagramManager._generate_diagram_title`, steps before the `Diagram`
suffix check: strip the extension (`Path(filename).stem`), turn underscores
and hyphens into spaces (`str.replace` on single characters is a character
map), split on whitespace, capitalize each word and re-join with single
spaces. -/
def diagram_title_base (filename : String) : List Char :=
  List.intercalate [' ']
    ((pySplitWs (((pyStemOfName (pyName filename.data)).map
      (fun c => if c = '_' then ' ' else c)).map
        (fun c => if c = '-' then ' ' else c))).map pyCapitalize)

/-- `DiagramManager._generate_diagram_title`: append ` Diagram` when neither
`diagram` nor `architecture` occurs in the lower-cased capitalized title. -/
def generate_diagram_title (filename : String) : String :=
  if ("diagram".data <:+: (diagram_title_base filename).map Char.toLower)
      ∨ ("architecture".data <:+: (diagram_title_base filename).map Char.toLower) then
    ⟨diagram_title_base filename⟩
  else
    ⟨diagram_title_base filename ++ " Diagram".data⟩

/-- C10: for every filename, the human-readable title derived by
`DiagramManager._generate_diagram_title` contains the word `diagram` or the
word `architecture` case-insensitively: when neither occurs in the
capitalized stem, the suffix ` Diagram` is appended. -/
theorem generated_title_contains_diagram_or_architecture (filename : String) :
    "diagram".data <:+: (generate_diagram_title filename).data.map Char.toLower
    ∨ "architecture".data <:+: (generate_diagram_title filename).data.map Char.toLower := by
  unfold generate_diagram_title
  split
  · next hcond =>
      simpa using hcond
  · next hcond =>
      left
      show "diagram".data
        <:+: (diagram_title_base filename ++ " Diagram".data).map Char.toLower
      rw [List.map_append]
      have hconcrete : (" Diagram".data).map Char.toLower = " diagram".data := by decide
      rw [hconcrete]
      exact ⟨(diagram_title_base filename).map Char.toLower ++ [' '], [], by simp⟩

/-! ### Filesystem model -/

/-- One entry of the watched directory (`generated-diagrams`): its (already
normalized) path, whether it is a regular file, and its stat fields. -/
structure FileEntry where
  path : String
  isFile : Bool
  mtime : Nat
  ctime : Nat
  size : Nat
deriving DecidableEq, Repr

/-- The watched directory at one instant: an existence flag plus the entries
`iterdir` would yield. -/
structure DirState where
  dirExists : Bool
  entries : List FileEntry
deriving DecidableEq, Repr

/-- `os.path.exists(p)` for a path inside the watched directory. -/
def path_exists (fs : DirState) (p : String) : Bool :=
  fs.entries.any fun e => e.path == p

/-! ### DiagramManager (`diagram_manager.py`) — the spec's ArtifactWatcher -/

/-- `DiagramManager.supported_extensions`. -/
def supported_extensions : List String :=
  [".png", ".jpg", ".jpeg", ".gif", ".bmp", ".svg", ".webp"]

/-- `DiagramManager._is_supported_image`: `file_path.suffix.lower()` is in
the allow-list. -/
def is_supported_image (p : String) : Bool :=
  supported_extensions.contains (pyLower (pySuffix p))

/-- `DiagramInfo` record (`diagram_manager.py`).  The source field `exists`
is a Lean keyword and is rendered `file_exists`. -/
structure DiagramInfo where
  filepath : String
  filename : String
  title : String
  created_at : Nat
  file_size : Nat
  file_exists : Bool
deriving DecidableEq, Repr

/-- `DiagramManager._normalize_file_path`: `Path(p).resolve()` plus
backslash replacement.  Paths in this model are already absolute and
slash-normalized, so resolution is the identity. -/
def normalize_file_path (p : String) : String := p

/-- `DiagramManager._get_diagram_info` on an entry obtained from `iterdir`
(hence existing at scan time): build the metadata record. -/
def get_diagram_info (e : FileEntry) : Option DiagramInfo :=
  some { filepath := normalize_file_path e.path
       , filename := pyNameStr e.path
       , title := generate_diagram_title (pyNameStr e.path)
       , created_at := e.ctime
       , file_size := e.size
       , file_exists := true }

/-- Mutable fields of `DiagramManager`: the scan-time cache. -/
structure DMState where
  last_scan_time : Nat
  cached_diagrams : List DiagramInfo
deriving DecidableEq, Repr

/-- `DiagramManager.__init__` cache fields: `_last_scan_time = 0`,
`_cached_diagrams = []`. -/
def dmInit : DMState := { last_scan_time := 0, cached_diagrams := [] }

/-- `DiagramManager._cache_duration` (seconds). -/
def cache_duration : Nat := 5

/-- The scan loop of `get_all_diagrams`: keep regular files with a supported
extension and take their metadata when the info call reports an existing
file. -/
def scan_diagrams (fs : DirState) : List DiagramInfo :=
  (fs.entries.filter fun e => e.isFile && is_supported_image e.path).filterMap
    fun e =>
      match get_diagram_info e with
      | some d => if d.file_exists then some d else none
      | none => none

/-- `DiagramManager.get_all_diagrams(force_refresh)`, acting on the cache
state and the directory at call time `now`: serve the cache inside the TTL,
else re-scan, store the scan in the cache, and return the scan filtered by
`os.path.exists` at call time.  A missing directory yields an empty list
and leaves the cache untouched. -/
def get_all_diagrams (st : DMState) (fs : DirState) (now : Nat) (force_refresh : Bool) :
    DMState × List DiagramInfo :=
  if ¬ force_refresh ∧ now - st.last_scan_time < cache_duration then
    (st, st.cached_diagrams)
  else if ¬ fs.dirExists then
    (st, [])
  else
    let diagrams := scan_diagrams fs
    let st2 : DMState := { last_scan_time := now, cached_diagrams := diagrams }
    (st2, diagrams.filter fun d => path_exists fs d.filepath)

/-- `DiagramManager._delete_diagram_file`: delete when the path is an
existing regular file; a raising `unlink` (modelled by `delete_fails`) is
caught and reported as `False`; returns whether the file was actually
deleted. -/
def delete_diagram_file (fs : DirState) (delete_fails : String → Bool) (p : String) :
    DirState × Bool :=
  if fs.entries.any fun e => e.path == p && e.isFile then
    if delete_fails p then (fs, false)
    else ({ fs with entries := fs.entries.filter fun e => !(e.path == p) }, true)
  else (fs, false)

/-- `DiagramManager.cleanup_old_diagrams(max_age_hours, max_count)`: list
with a forced refresh, delete entries older than `max_age_hours` (oldest
first), re-list, then delete the oldest entries beyond `max_count`;
reset the cache when the counter is positive.  The counter `deleted_count`
is incremented after every `_delete_diagram_file` call with the boolean
result discarded, exactly as in the source. -/
def cleanup_old_diagrams (st : DMState) (fs : DirState) (delete_fails : String → Bool)
    (now : Nat) (max_age_hours : Nat) (max_count : Nat) :
    DMState × DirState × Nat :=
  let scan1 := get_all_diagrams st fs now true
  if scan1.2.isEmpty then (scan1.1, fs, 0)
  else
    let sorted := List.insertionSort (fun a b => a.created_at ≤ b.created_at) scan1.2
    let phase1 := sorted.foldl
      (fun (acc : DirState × Nat) d =>
        if now - d.created_at > max_age_hours * 3600 then
          ((delete_diagram_file acc.1 delete_fails d.filepath).1, acc.2 + 1)
        else acc)
      (fs, 0)
    let scan2 := get_all_diagrams scan1.1 phase1.1 now true
    let phase2 :=
      if scan2.2.length > max_count then
        ((List.insertionSort (fun a b => a.created_at ≤ b.created_at) scan2.2).take
            (scan2.2.length - max_count)).foldl
          (fun (acc : DirState × Nat) d =>
            ((delete_diagram_file acc.1 delete_fails d.filepath).1, acc.2 + 1))
          phase1
      else phase1
    let st3 := if phase2.2 > 0 then { last_scan_time := 0, cached_diagrams := [] } else scan2.1
    (st3, phase2.1, phase2.2)

/-! ### TaskExecutor file detection (`agent_wrapper.py`) -/

/-- The inline extension set both `_get_existing_diagram_files` and
`_detect_new_files` use: `{'.png', '.jpg', '.jpeg', '.gif', '.svg'}`. -/
def wrapper_image_exts : List String := [".png", ".jpg", ".jpeg", ".gif", ".svg"]

/-- The per-entry condition of the wrapper snapshot loops:
`file_path.is_file() and file_path.suffix.lower() in {...}`. -/
def wrapper_matches (e : FileEntry) : Bool :=
  e.isFile && wrapper_image_exts.contains (pyLower (pySuffix e.path))

/-- `StreamlitAgentWrapper._get_existing_diagram_files`: the snapshot set of
matching paths (a Python `set`, hence deduplicated; empty when the
directory does not exist). -/
def get_existing_diagram_files (fs : DirState) : List String :=
  if fs.dirExists then ((fs.entries.filter wrapper_matches).map (fun e => e.path)).dedup
  else []

/-- `Path(f).stat().st_mtime` for a detected path. -/
def mtime_of (fs : DirState) (p : String) : Nat :=
  ((fs.entries.find? fun e => e.path == p).map (fun e => e.mtime)).getD 0

/-- `StreamlitAgentWrapper._detect_new_files(existing_files)`: current
snapshot minus the reference set, sorted newest-first by modification
time. -/
def detect_new_files (existing : List String) (fs : DirState) : List String :=
  if fs.dirExists then
    List.insertionSort (fun a b => mtime_of fs b ≤ mtime_of fs a)
      ((((fs.entries.filter wrapper_matches).map (fun e => e.path)).dedup).filter
        fun p => !(existing.contains p))
  else []

/-! ### C2 — existence of listed artifacts at call time -/

/-- A one-file directory used by the C2 and C4 scenarios. -/
def entryA : FileEntry :=
  { path := "generated-diagrams/a.png", isFile := true, mtime := 3, ctime := 3, size := 7 }

def fsA : DirState := { dirExists := true, entries := [entryA] }

/-- The same directory after `a.png` has been deleted. -/
def fsEmpty : DirState := { dirExists := true, entries := [] }

/-- C2 (counterexample): a scan at t = 10 caches `a.png`; the file is then
deleted and `get_all_diagrams` is called again at t = 12, inside the
5-second TTL.  The cached entry is returned although its backing file no
longer exists at call time, refuting the claim that every returned
`ArtifactInfo` exists at the time of the call. -/
theorem cached_listing_surfaces_deleted_file :
    ¬ (∀ d ∈ (get_all_diagrams (get_all_diagrams dmInit fsA 10 false).1 fsEmpty 12 false).2,
        path_exists fsEmpty d.filepath = true) := by decide

/-- C2 (amended): on every call that actually re-scans (a forced refresh or
a cache older than the TTL), every returned entry's backing file exists at
call time; only a cache hit within the 5-second TTL can surface an entry
whose file was deleted after the last scan. -/
theorem scan_path_listing_exists_at_call_time (st : DMState) (fs : DirState) (now : Nat)
    (force : Bool) (hscan : force = true ∨ ¬ (now - st.last_scan_time < cache_duration)) :
    ∀ d ∈ (get_all_diagrams st fs now force).2, path_exists fs d.filepath = true := by
  intro d hd
  unfold get_all_diagrams at hd
  have hcond : ¬ (¬ force = true ∧ now - st.last_scan_time < cache_duration) := by
    rcases hscan with h | h
    · simp [h]
    · intro hc
      exact h hc.2
  rw [if_neg hcond] at hd
  by_cases hfs : fs.dirExists = true
  · rw [if_neg (by simp [hfs])] at hd
    simp only [List.mem_filter] at hd
    exact hd.2
  · rw [if_pos (by simpa using hfs)] at hd
    simp at hd

/-- The `DiagramInfo` that the scan of `fsA` produces. -/
def diagA : DiagramInfo :=
  { filepath := "generated-diagrams/a.png", filename := "a.png", title := "A Diagram",
    created_at := 3, file_size := 7, file_exists := true }

theorem scan_path_listing_exists_witness :
    path_exists fsA diagA.filepath = true :=
  scan_path_listing_exists_at_call_time dmInit fsA 10 false (Or.inr (by decide)) diagA (by decide)

/-! ### C4 — diff correctness of `_detect_new_files` -/

def entryB : FileEntry :=
  { path := "generated-diagrams/b.png", isFile := true, mtime := 4, ctime := 4, size := 7 }

def entryC : FileEntry :=
  { path := "generated-diagrams/c.png", isFile := true, mtime := 9, ctime := 9, size := 7 }

/-- Directory with `{a.png, b.png}`. -/
def fsAB : DirState := { dirExists := true, entries := [entryA, entryB] }

/-- Directory with `{a.png, b.png, c.png}`. -/
def fsABC : DirState := { dirExists := true, entries := [entryA, entryB, entryC] }

/-- C4: for every reference set and directory state, `_detect_new_files`
returns exactly the set difference between the current snapshot and the
reference set, without duplicates, ordered newest-first by modification
time; in particular with `{a.png, b.png}` before and `{a.png, b.png, c.png}`
after it returns exactly `[c.png]`. -/
theorem detect_new_files_diff_correct :
    (∀ (before : List String) (fs : DirState),
      (detect_new_files before fs).toFinset
          = (get_existing_diagram_files fs).toFinset \ before.toFinset
      ∧ List.Sorted (fun a b => mtime_of fs b ≤ mtime_of fs a) (detect_new_files before fs)
      ∧ (detect_new_files before fs).Nodup)
    ∧ detect_new_files (get_existing_diagram_files fsAB) fsABC
        = ["generated-diagrams/c.png"] := by
  constructor
  · intro before fs
    by_cases hfs : fs.dirExists = true
    · have hdetect : detect_new_files before fs
          = List.insertionSort (fun a b => mtime_of fs b ≤ mtime_of fs a)
            ((((fs.entries.filter wrapper_matches).map (fun e => e.path)).dedup).filter
              fun p => !(before.contains p)) := by
        simp [detect_new_files, hfs]
      have hperm : List.Perm (detect_new_files before fs)
          ((((fs.entries.filter wrapper_matches).map (fun e => e.path)).dedup).filter
              (fun p => !(before.contains p))) := by
        rw [hdetect]
        exact List.perm_insertionSort _ _
      refine ⟨?_, ?_, ?_⟩
      · rw [List.toFinset_eq_of_perm _ _ hperm]
        ext a
        simp [get_existing_diagram_files, hfs, List.mem_filter, Finset.mem_sdiff]
      · haveI hTot : IsTotal String (fun a b => mtime_of fs b ≤ mtime_of fs a) :=
          ⟨fun a b => le_total _ _⟩
        haveI hTrans : IsTrans String (fun a b => mtime_of fs b ≤ mtime_of fs a) :=
          ⟨fun _ _ _ hab hbc => le_trans hbc hab⟩
        rw [hdetect]
        exact List.sorted_insertionSort _ _
      · have hbase : ((((fs.entries.filter wrapper_matches).map (fun e => e.path)).dedup).filter
            (fun p => !(before.contains p))).Nodup :=
          (List.nodup_dedup _).filter _
        exact (List.Perm.nodup_iff hperm).mpr hbase
    · have hd : detect_new_files before fs = [] := by
        simp [detect_new_files, hfs]
      have hg : get_existing_diagram_files fs = [] := by
        simp [get_existing_diagram_files, hfs]
      rw [hd, hg]
      simp
  · decide

/-! ### C5 — the extension allow-lists of executor and watcher differ -/

def bmpEntry : FileEntry :=
  { path := "generated-diagrams/x.bmp", isFile := true, mtime := 5, ctime := 5, size := 9 }

def fsBmp : DirState := { dirExists := true, entries := [bmpEntry] }

/-- C5 (counterexample): a `.bmp` file is in the DiagramManager allow-list
but is invisible to the wrapper snapshot, refuting the claim that the
executor snapshot matches a file iff its extension is in
`{png, jpg, jpeg, gif, bmp, svg, webp}`. -/
theorem executor_snapshot_misses_bmp :
    ¬ (("generated-diagrams/x.bmp" ∈ get_existing_diagram_files fsBmp)
        ↔ pyLower (pySuffix "generated-diagrams/x.bmp") ∈ supported_extensions) := by decide

/-- C5 (amended): the executor snapshot and diff match a file iff it is a
regular file whose lower-cased extension is in `{png, jpg, jpeg, gif, svg}`,
a strict subset of the ArtifactWatcher allow-list
`{png, jpg, jpeg, gif, bmp, svg, webp}`: `.bmp` and `.webp` files are listed
by the watcher but never seen by the executor diff. -/
theorem executor_allowlist_is_strict_subset (fs : DirState) (p : String)
    (hfs : fs.dirExists = true) :
    (p ∈ get_existing_diagram_files fs
        ↔ ∃ e ∈ fs.entries, e.path = p ∧ e.isFile = true
            ∧ pyLower (pySuffix e.path) ∈ wrapper_image_exts)
    ∧ (p ∈ detect_new_files [] fs
        ↔ ∃ e ∈ fs.entries, e.path = p ∧ e.isFile = true
            ∧ pyLower (pySuffix e.path) ∈ wrapper_image_exts)
    ∧ (∀ x ∈ wrapper_image_exts, x ∈ supported_extensions)
    ∧ ".bmp" ∈ supported_extensions ∧ ".bmp" ∉ wrapper_image_exts
    ∧ ".webp" ∈ supported_extensions ∧ ".webp" ∉ wrapper_image_exts := by
  have hchar : ∀ q : String,
      (q ∈ ((fs.entries.filter wrapper_matches).map (fun e => e.path)).dedup
        ↔ ∃ e ∈ fs.entries, e.path = q ∧ e.isFile = true
            ∧ pyLower (pySuffix e.path) ∈ wrapper_image_exts) := by
    intro q
    simp only [List.mem_dedup, List.mem_map, List.mem_filter, wrapper_matches,
      Bool.and_eq_true, List.elem_iff]
    constructor
    · rintro ⟨e, ⟨he, hf, hext⟩, hp⟩
      exact ⟨e, he, hp, hf, hext⟩
    · rintro ⟨e, he, hp, hf, hext⟩
      exact ⟨e, ⟨he, hf, hext⟩, hp⟩
  refine ⟨?_, ?_, by decide, by decide, by decide, by decide, by decide⟩
  · rw [show get_existing_diagram_files fs
        = ((fs.entries.filter wrapper_matches).map (fun e => e.path)).dedup by
      simp [get_existing_diagram_files, hfs]]
    exact hchar p
  · have hdetect : detect_new_files [] fs
        = List.insertionSort (fun a b => mtime_of fs b ≤ mtime_of fs a)
          ((fs.entries.filter wrapper_matches).map (fun e => e.path)).dedup := by
      simp [detect_new_files, hfs]
    rw [hdetect, List.mem_insertionSort]
    exact hchar p

theorem executor_allowlist_witness :
    (".bmp" ∈ supported_extensions ∧ ".bmp" ∉ wrapper_image_exts)
    ∧ ("generated-diagrams/x.bmp" ∈ get_existing_diagram_files fsBmp
        ↔ ∃ e ∈ fsBmp.entries, e.path = "generated-diagrams/x.bmp" ∧ e.isFile = true
            ∧ pyLower (pySuffix e.path) ∈ wrapper_image_exts) :=
  ⟨⟨(executor_allowlist_is_strict_subset fsBmp "generated-diagrams/x.bmp" (by decide)).2.2.2.1,
    (executor_allowlist_is_strict_subset fsBmp "generated-diagrams/x.bmp" (by decide)).2.2.2.2.1⟩,
   (executor_allowlist_is_strict_subset fsBmp "generated-diagrams/x.bmp" (by decide)).1⟩

/-! ### C6 — cleanup return value counts failed deletions -/

def oldEntry : FileEntry :=
  { path := "generated-diagrams/old.png", isFile := true, mtime := 0, ctime := 0, size := 10 }

/-- A directory holding one file created at t = 0. -/
def fsOld : DirState := { dirExists := true, entries := [oldEntry] }

/-- C6 (code bug): one file 100 hours old, `max_age_hours = 24`, and an
`unlink` that raises `PermissionError`.  `_delete_diagram_file` reports the
failure by returning `False`, but `cleanup_old_diagrams` discards that
boolean and increments `deleted_count` anyway: it returns 1 although the
file is still present and zero files were successfully deleted. -/
theorem cleanup_counts_failed_deletion :
    (cleanup_old_diagrams dmInit fsOld (fun _ => true) 360000 24 50).2.2 = 1
    ∧ (cleanup_old_diagrams dmInit fsOld (fun _ => true) 360000 24 50).2.1 = fsOld
    ∧ path_exists fsOld "generated-diagrams/old.png" = true
    ∧ (delete_diagram_file fsOld (fun _ => true) "generated-diagrams/old.png").2 = false := by
  decide

/-! ### TaskExecutor (`agent_wrapper.py`) — query processing -/

/-- Python exception leaf types distinguished by the `isinstance` cascade of
`_process_query_sync`. -/
inductive ExcType where
  | valueError
  | typeError
  | connectionError
  | timeoutError
  | fileNotFoundError
  | permissionError
  | osError
  | runtimeError
  | otherError
deriving DecidableEq, Repr

/-- A raised Python exception: its leaf type and `str(e)`. -/
structure PyExc where
  ty : ExcType
  msg : String
deriving DecidableEq, Repr

/-- The `isinstance` cascade of the outer `except` clause of
`_process_query_sync`: ValueError/TypeError → validation,
ConnectionError/TimeoutError → network,
FileNotFoundError/PermissionError/OSError → file system, everything else →
agent. -/
def classify_exception (ty : ExcType) : ErrorCategory :=
  match ty with
  | .valueError => .validation_error
  | .typeError => .validation_error
  | .connectionError => .network_error
  | .timeoutError => .network_error
  | .fileNotFoundError => .file_system_error
  | .permissionError => .file_system_error
  | .osError => .file_system_error
  | .runtimeError => .agent_error
  | .otherError => .agent_error

/-- A value passed as the `query` argument: a string, or any non-string
Python object. -/
inductive QueryInput where
  | notString
  | str (s : String)
deriving DecidableEq, Repr

/-- Python `str.strip()`: remove leading and trailing whitespace. -/
def pyStrip (s : String) : String :=
  ⟨(((s.data.dropWhile Char.isWhitespace).reverse.dropWhile Char.isWhitespace).reverse)⟩

/-- `StreamlitAgentWrapper._validate_query`: reject non-strings and empty
strings (`not query or not isinstance(query, str)`), whitespace-only
strings, and strings whose trimmed length is outside `[3, 5000]`. -/
def validate_query (q : QueryInput) : Bool :=
  match q with
  | .notString => false
  | .str s =>
    if s.isEmpty then false
    else if (pyStrip s).isEmpty then false
    else if (pyStrip s).length < 3 || (pyStrip s).length > 5000 then false
    else true

/-- `AgentResult` record (`agent_wrapper.py`); `generated_files` and
`status_history` default to empty, `processing_time` is the elapsed
wall-clock in seconds (an `Int`, as a difference of instants). -/
structure AgentResult where
  text : String
  success : Bool
  error_message : Option String
  generated_files : List String
  processing_time : Int
deriving DecidableEq, Repr

/-- The wrapper handles `_is_initialized`, `_agent` and `_mcp_client`
reduced to their observable presence. -/
structure WrapperState where
  is_initialized : Bool
  agentSome : Bool
  mcpSome : Bool
deriving DecidableEq, Repr

/-- Behaviour of the one collaborator call `self._agent(query)`: return a
response text or raise. -/
inductive CollabBehavior where
  | returns (text : String)
  | raises (e : PyExc)
deriving DecidableEq, Repr

/-- The `ValueError` message built for an invalid query. -/
def invalid_query_msg : String :=
  "Invalid query: Query must be between 3 and 5000 characters and contain meaningful content."

/-- The `RuntimeError` message built for an uninitialized agent. -/
def not_initialized_msg : String :=
  "Agent not initialized. Please check your configuration and try again."

/-- Observable outcome of one `_process_query_sync` call: the global
`error_handler` history afterwards (it survives a raise), whether the
collaborator was invoked, and the method result — `.error` for a raise
escaping the modelled code, `.ok` for a returned `AgentResult`. -/
structure SyncOutcome where
  hist : List ErrorInfo
  collab_invoked : Bool
  outcome : Except PyExc AgentResult

/-- The body of the outer `try` of `_process_query_sync`: validation
(recording a validation error and raising `ValueError` on failure), the
initialization check (recording a configuration error and raising
`RuntimeError`), the snapshot, the collaborator call (an agent-category
record and a re-raise when it raises), the diff, and assembly of the
success result.  `t0` is `start_time`, `tEnd` the instant the result is
assembled; `fsBefore`/`fsAfter` are the watched directory before and after
the collaborator call. -/
def process_query_sync_core (hist : List ErrorInfo) (st : WrapperState) (q : QueryInput)
    (collab : CollabBehavior) (fsBefore fsAfter : DirState) (t0 tEnd : Nat) : SyncOutcome :=
  if ¬ validate_query q then
    { hist := handle_error hist .validation_error .medium invalid_query_msg "agent_wrapper"
    , collab_invoked := false
    , outcome := .error { ty := .valueError, msg := invalid_query_msg } }
  else if ¬ (st.is_initialized ∧ st.agentSome) then
    { hist := handle_error hist .configuration_error .medium not_initialized_msg "agent_wrapper"
    , collab_invoked := false
    , outcome := .error { ty := .runtimeError, msg := not_initialized_msg } }
  else
    match collab with
    | .raises e =>
      { hist := handle_error hist .agent_error .high e.msg "agent_wrapper"
      , collab_invoked := true
      , outcome := .error e }
    | .returns text =>
      { hist := hist
      , collab_invoked := true
      , outcome := .ok
          { text := text, success := true, error_message := none
          , generated_files := detect_new_files (get_existing_diagram_files fsBefore) fsAfter
          , processing_time := (tEnd : Int) - (t0 : Int) } }

/-- `StreamlitAgentWrapper._process_query_sync`: the outer
`except Exception` clause classifies a raise from the body with the
`isinstance` cascade, records it, and converts it into a failure
`AgentResult` carrying `str(e)` and the elapsed time.  The handler itself
returns normally, so `.error` can only come from the body. -/
def process_query_sync (hist : List ErrorInfo) (st : WrapperState) (q : QueryInput)
    (collab : CollabBehavior) (fsBefore fsAfter : DirState) (t0 tEnd : Nat) : SyncOutcome :=
  let core := process_query_sync_core hist st q collab fsBefore fsAfter t0 tEnd
  match core.outcome with
  | .ok r => { core with outcome := .ok r }
  | .error e =>
    { hist := handle_error core.hist (classify_exception e.ty) .medium e.msg "agent_wrapper"
    , collab_invoked := core.collab_invoked
    , outcome := .ok
        { text := "", success := false, error_message := some e.msg
        , generated_files := [], processing_time := (tEnd : Int) - (t0 : Int) } }

/-- `StreamlitAgentWrapper.process_query_async`: await the worker running
`_process_query_sync`, bounded by `timeout_seconds`.  On timeout
(`timed_out`) the caller receives a failure result with the timeout message
and `processing_time = timeout_seconds`; otherwise the sync result is
passed through unchanged.  (The trailing generic `except` of the source
guards substrate failures outside this model; the worker itself never
raises.) -/
def process_query_async (hist : List ErrorInfo) (st : WrapperState) (q : QueryInput)
    (collab : CollabBehavior) (fsBefore fsAfter : DirState) (t0 tEnd : Nat)
    (timeout_seconds : Nat) (timed_out : Bool) : List ErrorInfo × Except PyExc AgentResult :=
  if timed_out then
    (hist, .ok
      { text := "", success := false
      , error_message := some ("Query processing timed out after "
          ++ toString timeout_seconds
          ++ " seconds. Please try a simpler query or check your connection.")
      , generated_files := [], processing_time := (timeout_seconds : Int) })
  else
    ((process_query_sync hist st q collab fsBefore fsAfter t0 tEnd).hist,
     (process_query_sync hist st q collab fsBefore fsAfter t0 tEnd).outcome)

/-- `StreamlitAgentWrapper.is_available`. -/
def is_available (st : WrapperState) : Bool :=
  st.is_initialized && st.agentSome && st.mcpSome

/-- `StreamlitAgentWrapper._initialize_agent` final state: on success every
handle is set; on failure (`init_fails`, the agent/collaborator
construction raising) the `except` clause clears `_agent`, resets
`_is_initialized` and re-raises, so the state is paired with the exception
the method propagates.  The MCP client handle was assigned before the
failing step. -/
def initialize_agent_core (init_fails : Bool) : WrapperState × Option PyExc :=
  if init_fails then
    ({ is_initialized := false, agentSome := false, mcpSome := true },
      some { ty := .otherError, msg := "Initialization failed" })
  else
    ({ is_initialized := true, agentSome := true, mcpSome := true }, none)

/-- `StreamlitAgentWrapper.__init__`: construction calls
`_initialize_agent` with no surrounding `try`, so a failing initialization
raises out of the constructor. -/
def wrapper_init (init_fails : Bool) : Except PyExc WrapperState :=
  match initialize_agent_core init_fails with
  | (_, some e) => .error e
  | (st, none) => .ok st

/-- The wrapper state after a successful construction. -/
def wrapperReady : WrapperState := (initialize_agent_core false).1

theorem mem_add_to_history_self (h : List ErrorInfo) (e : ErrorInfo) :
    e ∈ add_to_history h e := by
  rw [add_to_history_eq_lastN]
  unfold lastN
  have hk : (h ++ [e]).length - max_history_size ≤ h.length := by
    simp [max_history_size]
  rw [List.drop_append_of_le_length hk]
  simp

theorem mem_add_to_history_pair (h : List ErrorInfo) (e1 e2 : ErrorInfo) :
    e1 ∈ add_to_history (add_to_history h e1) e2 := by
  obtain ⟨W, hW⟩ : ∃ W, add_to_history h e1 = W ++ [e1] := by
    rw [add_to_history_eq_lastN]
    unfold lastN
    have hk : (h ++ [e1]).length - max_history_size ≤ h.length := by
      simp [max_history_size]
    exact ⟨h.drop _, List.drop_append_of_le_length hk⟩
  rw [hW, add_to_history_eq_lastN]
  unfold lastN
  have hk2 : ((W ++ [e1]) ++ [e2]).length - max_history_size ≤ W.length := by
    simp [max_history_size]
  rw [List.append_assoc, List.drop_append_of_le_length (by simpa using hk2)]
  simp

theorem core_ok_shape (hist : List ErrorInfo) (st : WrapperState) (q : QueryInput)
    (collab : CollabBehavior) (fsBefore fsAfter : DirState) (t0 tEnd : Nat) (r : AgentResult)
    (heq : (process_query_sync_core hist st q collab fsBefore fsAfter t0 tEnd).outcome
        = .ok r) :
    r.success = true ∧ r.error_message = none
    ∧ r.processing_time = (tEnd : Int) - (t0 : Int) := by
  unfold process_query_sync_core at heq
  split at heq
  · cases heq
  · split at heq
    · cases heq
    · cases hcollab : collab with
      | raises e =>
        rw [hcollab] at heq
        cases heq
      | returns text =>
        rw [hcollab] at heq
        cases heq
        exact ⟨rfl, rfl, rfl⟩

/-- C1: for every query (valid or not), every wrapper state and every
behaviour of the collaborator call (returning or raising any exception),
`_process_query_sync` and `process_query_async` return an `AgentResult`
and never propagate an exception to the caller; for every valid query the
result is either `success = true` with non-negative `processing_time`, or
`success = false` with a non-null `error_message`. -/
theorem submit_never_raises (hist : List ErrorInfo) (st : WrapperState) (q : QueryInput)
    (collab : CollabBehavior) (fsBefore fsAfter : DirState) (t0 tEnd : Nat)
    (timeout_seconds : Nat) (timed_out : Bool) (hclock : t0 ≤ tEnd) :
    (∃ r, (process_query_sync hist st q collab fsBefore fsAfter t0 tEnd).outcome
          = .ok r
      ∧ (validate_query q = true →
          (r.success = true ∧ 0 ≤ r.processing_time)
          ∨ (r.success = false ∧ r.error_message ≠ none)))
    ∧ (∃ r, (process_query_async hist st q collab fsBefore fsAfter t0 tEnd
            timeout_seconds timed_out).2 = .ok r
      ∧ (validate_query q = true →
          (r.success = true ∧ 0 ≤ r.processing_time)
          ∨ (r.success = false ∧ r.error_message ≠ none))) := by
  have hsync : ∃ r, (process_query_sync hist st q collab fsBefore fsAfter t0 tEnd).outcome
      = .ok r
      ∧ (validate_query q = true →
          (r.success = true ∧ 0 ≤ r.processing_time)
          ∨ (r.success = false ∧ r.error_message ≠ none)) := by
    simp only [process_query_sync]
    split
    · next r heq =>
        obtain ⟨hs, _hm, hp⟩ :=
          core_ok_shape hist st q collab fsBefore fsAfter t0 tEnd r heq
        exact ⟨r, rfl, fun _ => Or.inl ⟨hs, by rw [hp]; omega⟩⟩
    · next e _heq =>
        exact ⟨_, rfl, fun _ => Or.inr ⟨rfl, by simp⟩⟩
  refine ⟨hsync, ?_⟩
  by_cases ht : timed_out
  · refine ⟨AgentResult.mk "" false
      (some ("Query processing timed out after " ++ toString timeout_seconds
        ++ " seconds. Please try a simpler query or check your connection."))
      [] (timeout_seconds : Int), ?_, ?_⟩
    · unfold process_query_async
      rw [if_pos ht]
    · intro _
      exact Or.inr ⟨rfl, by simp⟩
  · obtain ⟨r, hr, hprop⟩ := hsync
    refine ⟨r, ?_, hprop⟩
    unfold process_query_async
    rw [if_neg ht]
    exact hr

theorem submit_never_raises_witness :
    ∃ r, (process_query_sync [] wrapperReady (.str "hello") (.returns "ok")
          fsEmpty fsEmpty 0 1).outcome = .ok r
      ∧ (validate_query (.str "hello") = true →
          (r.success = true ∧ 0 ≤ r.processing_time)
          ∨ (r.success = false ∧ r.error_message ≠ none)) :=
  (submit_never_raises [] wrapperReady (.str "hello") (.returns "ok")
    fsEmpty fsEmpty 0 1 120 false (by decide)).1

/-- C3: for every invalid query, `_process_query_sync` returns a failure
`AgentResult` carrying the validation message, records an error of
category `validation`, and never reaches the collaborator call site. -/
theorem invalid_query_short_circuits (hist : List ErrorInfo) (st : WrapperState)
    (q : QueryInput) (collab : CollabBehavior) (fsBefore fsAfter : DirState) (t0 tEnd : Nat)
    (hinv : validate_query q = false) :
    (process_query_sync hist st q collab fsBefore fsAfter t0 tEnd).collab_invoked = false
    ∧ (∃ r, (process_query_sync hist st q collab fsBefore fsAfter t0 tEnd).outcome
          = .ok r ∧ r.success = false ∧ r.error_message = some invalid_query_msg)
    ∧ (∃ rec ∈ (process_query_sync hist st q collab fsBefore fsAfter t0 tEnd).hist,
        rec.category = ErrorCategory.validation_error) := by
  have hcore : process_query_sync_core hist st q collab fsBefore fsAfter t0 tEnd
      = { hist := handle_error hist .validation_error .medium invalid_query_msg "agent_wrapper"
        , collab_invoked := false
        , outcome := .error { ty := .valueError, msg := invalid_query_msg } } := by
    unfold process_query_sync_core
    rw [if_pos (by simp [hinv])]
  have hfull : process_query_sync hist st q collab fsBefore fsAfter t0 tEnd
      = SyncOutcome.mk
          (handle_error
            (handle_error hist .validation_error .medium invalid_query_msg "agent_wrapper")
            (classify_exception .valueError) .medium invalid_query_msg "agent_wrapper")
          false
          (.ok (AgentResult.mk "" false (some invalid_query_msg) []
            ((tEnd : Int) - (t0 : Int)))) := by
    unfold process_query_sync
    rw [hcore]
  rw [hfull]
  refine ⟨rfl, ⟨_, rfl, rfl, rfl⟩, ?_⟩
  exact ⟨ErrorInfo.mk .validation_error .medium invalid_query_msg "agent_wrapper",
    mem_add_to_history_self _ _, rfl⟩

theorem invalid_query_short_circuits_witness :
    (process_query_sync [] wrapperReady (.str "") (.returns "ok") fsEmpty fsEmpty 0 1).collab_invoked
      = false
    ∧ (∃ r, (process_query_sync [] wrapperReady (.str "") (.returns "ok")
          fsEmpty fsEmpty 0 1).outcome = .ok r
        ∧ r.success = false ∧ r.error_message = some invalid_query_msg)
    ∧ (∃ rec ∈ (process_query_sync [] wrapperReady (.str "") (.returns "ok")
          fsEmpty fsEmpty 0 1).hist, rec.category = ErrorCategory.validation_error) :=
  invalid_query_short_circuits [] wrapperReady (.str "") (.returns "ok")
    fsEmpty fsEmpty 0 1 (by decide)

/-- C8 (counterexample): when the agent construction raises, the exception
propagates out of `StreamlitAgentWrapper.__init__` instead of being
captured: construction evaluates to a raise, refuting the claim that the
failure never leaves construction. -/
theorem failed_construction_raises :
    wrapper_init true = Except.error { ty := .otherError, msg := "Initialization failed" } := rfl

/-- C8 (amended): a failing initialization records the broken state
(`_agent` cleared, `_is_initialized` false) and then re-raises out of
construction; on a wrapper left in that state, `is_available` returns
false and every submit call short-circuits to a failed `AgentResult`
(recording a `configuration`-category error) without invoking the
collaborator. -/
theorem failed_init_unavailable_and_short_circuit (hist : List ErrorInfo) (q : QueryInput)
    (collab : CollabBehavior) (fsBefore fsAfter : DirState) (t0 tEnd : Nat)
    (hq : validate_query q = true) :
    (initialize_agent_core true).2.isSome = true
    ∧ (initialize_agent_core true).1.is_initialized = false
    ∧ (initialize_agent_core true).1.agentSome = false
    ∧ is_available (initialize_agent_core true).1 = false
    ∧ (process_query_sync hist (initialize_agent_core true).1 q collab
        fsBefore fsAfter t0 tEnd).collab_invoked = false
    ∧ (∃ r, (process_query_sync hist (initialize_agent_core true).1 q collab
          fsBefore fsAfter t0 tEnd).outcome = .ok r
        ∧ r.success = false ∧ r.error_message = some not_initialized_msg)
    ∧ (∃ rec ∈ (process_query_sync hist (initialize_agent_core true).1 q collab
          fsBefore fsAfter t0 tEnd).hist,
        rec.category = ErrorCategory.configuration_error) := by
  have hcore : process_query_sync_core hist (initialize_agent_core true).1 q collab
      fsBefore fsAfter t0 tEnd
      = { hist := handle_error hist .configuration_error .medium not_initialized_msg
            "agent_wrapper"
        , collab_invoked := false
        , outcome := .error { ty := .runtimeError, msg := not_initialized_msg } } := by
    unfold process_query_sync_core
    rw [if_neg (by simp [hq]), if_pos (by simp [initialize_agent_core])]
  have hfull : process_query_sync hist (initialize_agent_core true).1 q collab
      fsBefore fsAfter t0 tEnd
      = SyncOutcome.mk
          (handle_error
            (handle_error hist .configuration_error .medium not_initialized_msg
              "agent_wrapper")
            (classify_exception .runtimeError) .medium not_initialized_msg "agent_wrapper")
          false
          (.ok (AgentResult.mk "" false (some not_initialized_msg) []
            ((tEnd : Int) - (t0 : Int)))) := by
    unfold process_query_sync
    rw [hcore]
  rw [hfull]
  refine ⟨rfl, rfl, rfl, rfl, rfl, ⟨_, rfl, rfl, rfl⟩, ?_⟩
  exact ⟨ErrorInfo.mk .configuration_error .medium not_initialized_msg "agent_wrapper",
    mem_add_to_history_pair _ _ _, rfl⟩

theorem failed_init_short_circuit_witness :
    is_available (initialize_agent_core true).1 = false
    ∧ (process_query_sync [] (initialize_agent_core true).1 (.str "hello") (.returns "ok")
        fsEmpty fsEmpty 0 1).collab_invoked = false
    ∧ (∃ rec ∈ (process_query_sync [] (initialize_agent_core true).1 (.str "hello")
          (.returns "ok") fsEmpty fsEmpty 0 1).hist,
        rec.category = ErrorCategory.configuration_error) :=
  ⟨(failed_init_unavailable_and_short_circuit [] (.str "hello") (.returns "ok")
      fsEmpty fsEmpty 0 1 (by decide)).2.2.2.1,
   (failed_init_unavailable_and_short_circuit [] (.str "hello") (.returns "ok")
      fsEmpty fsEmpty 0 1 (by decide)).2.2.2.2.1,
   (failed_init_unavailable_and_short_circuit [] (.str "hello") (.returns "ok")
      fsEmpty fsEmpty 0 1 (by decide)).2.2.2.2.2.2⟩

/-! ### StatusBroadcaster (`_emit_status` and the callback registry) -/

/-- `ProcessingStatus` record (`agent_wrapper.py`); the optional `details`
mapping is diagnostic payload not touched by any verified claim. -/
structure ProcessingStatus where
  stage : String
  message : String
  progress : ℚ
  timestamp : Nat
deriving DecidableEq, Repr

/-- Behaviour of one status callback on one invocation: return normally or
raise. -/
inductive CbBehavior where
  | ok
  | raises (msg : String)
deriving DecidableEq, Repr

/-- One registered callback: an identifier and its behaviour per received
status. -/
structure Callback where
  id : Nat
  behavior : ProcessingStatus → CbBehavior

/-- Observable effect of one emit: the callbacks invoked (id paired with the
status each received, in invocation order) and the warnings logged for
raising callbacks. -/
structure EmitLog where
  delivered : List (Nat × ProcessingStatus)
  warnings : List String

/-- The callback loop of `_emit_status`: every registered callback is
invoked with the same status; the per-callback `try/except Exception`
catches a raising callback, logs a warning and continues with the next
callback, so a raise never leaves the loop. -/
def emit_loop (cbs : List Callback) (status : ProcessingStatus) : Except String EmitLog :=
  match cbs with
  | [] => .ok (EmitLog.mk [] [])
  | c :: rest =>
    let warn :=
      match c.behavior status with
      | .ok => []
      | .raises m => ["Status callback error: " ++ m]
    match emit_loop rest status with
    | .ok log => .ok (EmitLog.mk ((c.id, status) :: log.delivered) (warn ++ log.warnings))
    | .error e => .error e

/-- `StreamlitAgentWrapper._emit_status`: construct the `ProcessingStatus`
with the current instant and deliver it through the callback loop. -/
def emit_status (cbs : List Callback) (stage message : String) (progress : ℚ) (now : Nat) :
    Except String EmitLog :=
  emit_loop cbs (ProcessingStatus.mk stage message progress now)

theorem emit_loop_ok (status : ProcessingStatus) (cbs : List Callback) :
    ∃ log, emit_loop cbs status = .ok log
      ∧ log.delivered = cbs.map fun c => (c.id, status) := by
  induction cbs with
  | nil => exact ⟨EmitLog.mk [] [], rfl, rfl⟩
  | cons c rest ih =>
    obtain ⟨log, hok, hdel⟩ := ih
    refine ⟨EmitLog.mk ((c.id, status) :: log.delivered)
      ((match c.behavior status with
        | .ok => []
        | .raises m => ["Status callback error: " ++ m]) ++ log.warnings), ?_, ?_⟩
    · unfold emit_loop
      rw [hok]
    · simp [hdel]

/-- C9: for every list of subscribed callbacks and every emitted status,
`_emit_status` invokes every callback in registration order with the same
`ProcessingStatus`, and a raising callback is caught: it neither prevents
delivery to the remaining callbacks nor propagates an exception into the
emitting task. -/
theorem emit_delivers_to_all_and_never_raises (cbs : List Callback)
    (stage message : String) (progress : ℚ) (now : Nat) :
    ∃ log, emit_status cbs stage message progress now = .ok log
      ∧ log.delivered = cbs.map fun c =>
          (c.id, ProcessingStatus.mk stage message progress now) :=
  emit_loop_ok (ProcessingStatus.mk stage message progress now) cbs
